import Mathlib

/-!
Verification development for the bluesky-py-oauth repository.

The authenticated-request engine (`pds_authed_req` and `refresh_token_request`
in `api-py/atproto_oauth.py`) is described by the specification and by the test
documentation under `api-py/tests/` (README.md, TEST_RESULTS.md); the Python
module itself is not part of the provided sources, so the engine is modelled
here from the specification, faithful to its words (sections 3, 4, 6, 7) and to
the implementation details recorded in TEST_RESULTS.md (for example the expiry
detection `error == "invalid_token" and "exp" in message`).

The client-side user store and the `/me` response type are embedded directly
from the TypeScript sources (`frontend`, `unnamed/part_002`, `unnamed/part_004`,
`unnamed/part_006`).
-/

/-- Substring matching on character lists: does the haystack start with the
needle?  Used to model the Python membership test `"exp" in message`. -/
def charsMatchFront : List Char → List Char → Bool
  | [], _ => true
  | _ :: _, [] => false
  | a :: as, b :: bs => a == b && charsMatchFront as bs

/-- Does the needle occur as a contiguous substring of the haystack? -/
def charsHaveSub (needle : List Char) : List Char → Bool
  | [] => charsMatchFront needle []
  | c :: cs => charsMatchFront needle (c :: cs) || charsHaveSub needle cs

/-- `strContainsSub hay needle` models Python `needle in hay`. -/
def strContainsSub (hay needle : String) : Bool :=
  charsHaveSub needle.data hay.data

/-- Modelled from the spec: `OAuthSession` (section 3) — one user's live
credential set: subject, token pair, issuer, the session's private proof key,
the two independent optional nonces, and the last-updated timestamp.  The
missing source is `api-py/atproto_oauth.py`'s OAuth session record; the field
names follow the `User` wire type of `src/unnamed/part_002`. -/
structure OAuthSession where
  did : String
  accessToken : String
  refreshToken : String
  authserverIss : String
  dpopPrivateJwk : String
  dpopAuthserverNonce : Option String
  dpopPdsNonce : Option String
  updatedAt : Nat
deriving DecidableEq

/-- Structured error body `\x7berror: string, error_description?: string\x7d`
of the resource-server wire contract (spec section 6). -/
structure ErrorBody where
  error : String
  errorDescription : Option String
deriving DecidableEq

/-- One HTTP response: status, parsed error body when present, and the
`DPoP-Nonce` response header when present. -/
structure HttpResponse where
  status : Nat
  errorBody : Option ErrorBody
  dpopNonceHeader : Option String
deriving DecidableEq

/-- `RequestOutcome` (spec section 3): classification of one HTTP attempt.
A transport-level failure is classified from the absent response. -/
inductive RequestOutcome
  | success (status : Nat)
  | tokenExpired
  | nonceRequired (nonce : String)
  | otherFailure
deriving DecidableEq

/-- Modelled from the spec: the Classify step of the executor (spec section
4.4) together with the expiry heuristic documented in
`api-py/tests/TEST_RESULTS.md` (line 94): token expiry is detected by
`error == "invalid_token" and "exp" in message`.  The missing source is
`pds_authed_req` in `api-py/atproto_oauth.py` (lines 428-497). -/
def classify : Option HttpResponse → RequestOutcome
  | none => .otherFailure
  | some r =>
    if 200 ≤ r.status ∧ r.status < 300 then
      .success r.status
    else if r.status = 400 ∨ r.status = 401 then
      match r.errorBody with
      | none => .otherFailure
      | some b =>
        if b.error = "invalid_token" then
          if strContainsSub (b.errorDescription.getD "") "exp" then
            .tokenExpired
          else
            .otherFailure
        else if b.error = "use_dpop_nonce" then
          match r.dpopNonceHeader with
          | none => .otherFailure
          | some n => .nonceRequired n
        else .otherFailure
    else .otherFailure

/-- Outcome of the refresh-token grant (spec section 4.3): either a new token
pair (the caller adopts whatever refresh token is returned), possibly with a
new authorization-server nonce, or `denied` (`RefreshDenied`). -/
inductive RefreshResult
  | granted (accessToken refreshToken : String) (authNonce : Option String)
  | denied
deriving DecidableEq

/-- The environment one logical call runs against: the resource server's
response to the n-th attempt (counted from 0), the outcome of the refresh
grant should it be invoked, and whether a credential-store `update` commits
(`false` models `PersistenceError`). -/
structure Env where
  respond : Nat → Option HttpResponse
  refresh : RefreshResult
  persistOk : Bool

/-- Modelled from the spec: the credential-store mutation applied on a
resource-server nonce rejection (spec sections 4.4 Renoncing and 3): only the
resource-server nonce field is written. -/
def applyPdsNonce (s : OAuthSession) (n : String) : OAuthSession :=
  { s with dpopPdsNonce := some n }

/-- Modelled from the spec: the credential-store mutation applied after a
successful refresh (spec sections 4.3 and 3): both tokens and the timestamp
rotate, the authorization-server nonce is adopted when the refresh returned
one, and the private key is never touched. -/
def applyRefresh (s : OAuthSession) (a rt : String) (an : Option String) :
    OAuthSession :=
  { s with
    accessToken := a
    refreshToken := rt
    dpopAuthserverNonce := match an with | some n => some n | none => s.dpopAuthserverNonce
    updatedAt := s.updatedAt + 1 }

/-- What one logical call produced: the response handed to the caller, the
final stored session, and how many resource-server attempts, refresh-endpoint
calls and credential-store update calls were made. -/
structure ExecResult where
  response : Option HttpResponse
  session : OAuthSession
  resourceCalls : Nat
  refreshCalls : Nat
  updateCalls : Nat
deriving DecidableEq

/-- Modelled from the spec: the Authenticated Request Executor state machine
(spec section 4.4), missing source `pds_authed_req` in
`api-py/atproto_oauth.py`.  `refreshUsed` and `nonceUsed` are the two
independent one-shot retry budgets (spec section 9); `fuel` counts the retry
budgets still unspent, so the wrapper passes `2` and a call at fuel `0` has
both budgets consumed and returns the attempt's response to the caller
unconditionally — exactly what the machine does once no budget is left.
On `tokenExpired` with budget: refresh; `denied` returns the original
response untouched; a granted refresh is persisted (a failed persist is
treated as recovery failure: original response, no retry) and retried once.
On `nonceRequired` with budget: the nonce is persisted to the resource-server
nonce field and the attempt retried once.  A recoverable classification whose
budget is spent is returned as-is, like `otherFailure`. -/
def runFrom (env : Env) : Nat → OAuthSession → Nat → Bool → Bool →
    Nat → Nat → Nat → ExecResult
  | 0, s, idx, _, _, rc, fc, uc =>
      ⟨env.respond idx, s, rc + 1, fc, uc⟩
  | fuel + 1, s, idx, refreshUsed, nonceUsed, rc, fc, uc =>
    match classify (env.respond idx) with
    | .success _ => ⟨env.respond idx, s, rc + 1, fc, uc⟩
    | .otherFailure => ⟨env.respond idx, s, rc + 1, fc, uc⟩
    | .tokenExpired =>
      if refreshUsed then
        ⟨env.respond idx, s, rc + 1, fc, uc⟩
      else
        match env.refresh with
        | .denied => ⟨env.respond idx, s, rc + 1, fc + 1, uc⟩
        | .granted a rt an =>
          if env.persistOk then
            runFrom env fuel (applyRefresh s a rt an) (idx + 1) true nonceUsed
              (rc + 1) (fc + 1) (uc + 1)
          else
            ⟨env.respond idx, s, rc + 1, fc + 1, uc + 1⟩
    | .nonceRequired n =>
      if nonceUsed then
        ⟨env.respond idx, s, rc + 1, fc, uc⟩
      else
        if env.persistOk then
          runFrom env fuel (applyPdsNonce s n) (idx + 1) refreshUsed true
            (rc + 1) fc (uc + 1)
        else
          ⟨env.respond idx, s, rc + 1, fc, uc + 1⟩

/-- Modelled from the spec: one logical authenticated request
(`performAuthenticatedRequest`, spec section 6), starting from the stored
session with both retry budgets unspent. -/
def pdsAuthedReq (env : Env) (s : OAuthSession) : ExecResult :=
  runFrom env 2 s 0 false false 0 0 0

/-- Is the outcome a `nonceRequired` classification? -/
def outcomeIsNonce : RequestOutcome → Bool
  | .nonceRequired _ => true
  | _ => false

/-- Is the outcome a `success` classification? -/
def outcomeIsSuccess : RequestOutcome → Bool
  | .success _ => true
  | _ => false

/-- The `User` wire type of the frontend, embedded from the TypeScript
interface in `src/unnamed/part_002` (lines 155-169).  This is the declared
shape of the user object the backend serves to the browser; note that it
carries `dpop_private_jwk`, the session's private proof-of-possession key. -/
structure User where
  access_token : String
  authserver_iss : String
  did : String
  dpop_authserver_nonce : String
  dpop_pds_nonce : Option String
  dpop_private_jwk : String
  handle : String
  pds_url : String
  refresh_token : String
  avatar : String
  display_name : String
  created_at : String
  description : String
deriving DecidableEq

/-- The `/me` response type, embedded from `MeApiResponse` in
`src/unnamed/part_006` (lines 5-8): `\x7bmessage: string, user: User\x7d`. -/
structure MeApiResponse where
  message : String
  user : User
deriving DecidableEq

/-- The `select` projection of `useUser` in `src/unnamed/part_006`
(lines 24-26): the hook hands callers `data.user`, the full `User` object of
the `/me` response. -/
def useUserSelect (data : MeApiResponse) : User := data.user

/-- Runtime value of the `user` field of the zustand user store
(`src/unnamed/part_004`): the JavaScript value is either `null`, the literal
empty object `\x7b\x7d as User` of the initial state (an object with none of
the `User` fields), or an actual user object. -/
inductive UserValue
  | nullUser
  | emptyUser
  | someUser (u : User)
deriving DecidableEq

/-- The state held (and persisted to `localStorage` by the `persist`
middleware) by `useUserStore` in `src/unnamed/part_004`. -/
structure UserState where
  user : UserValue
deriving DecidableEq

/-- The creator's initial state in `src/unnamed/part_004` line 14:
`user: \x7b\x7d as User` — the empty object cast to `User`, not `null`.
This is the state of a freshly created store with no persisted snapshot. -/
def initialUserState : UserState := ⟨.emptyUser⟩

/-- `setUser` of `src/unnamed/part_004`: the store's declared interface
(line 7) is `setUser: (user: User | null) => void`, and the implementation
(line 15) is `set(\x7buser\x7d)`, which stores whatever value was passed —
so a `null` argument (modelled as `none`) makes the stored user `null`. -/
def setUser (_st : UserState) (u : Option User) : UserState :=
  ⟨match u with
   | some x => .someUser x
   | none => .nullUser⟩

/-- `clearUser` of `src/unnamed/part_004` line 16: `set(\x7buser: null\x7d)`. -/
def clearUser (_st : UserState) : UserState := ⟨.nullUser⟩

/-- One call into the user store's API; a `set` carries `User | null`
exactly as the `UserState` interface of `src/unnamed/part_004` declares. -/
inductive StoreAction
  | set (u : Option User)
  | clear
deriving DecidableEq

/-- Apply one store call to the store state. -/
def applyAction (st : UserState) : StoreAction → UserState
  | .set u => setUser st u
  | .clear => clearUser st

/-- Run a sequence of store calls from a given state. -/
def runStore (st : UserState) : List StoreAction → UserState
  | [] => st
  | a :: rest => runStore (applyAction st a) rest

-- Sanity checks of the classification on the spec's concrete wire examples.
example :
    classify (some ⟨400, some ⟨"invalid_token", some "token exp ..."⟩, none⟩) =
      .tokenExpired := by decide
example :
    classify (some ⟨400, some ⟨"use_dpop_nonce", none⟩, some "n1"⟩) =
      .nonceRequired "n1" := by decide
example :
    classify (some ⟨400, some ⟨"invalid_token", some "malformed signature"⟩, none⟩) =
      .otherFailure := by decide
example : classify (some ⟨200, none, none⟩) = .success 200 := by decide
example : classify none = .otherFailure := by decide

/-- Bounding lemma: a run with the given fuel makes at most `fuel + 1`
attempts on the resource server beyond the `rc` already counted. -/
theorem runFrom_resourceCalls_le (env : Env) :
    ∀ (fuel : Nat) (s : OAuthSession) (idx : Nat) (ru nu : Bool)
      (rc fc uc : Nat),
      (runFrom env fuel s idx ru nu rc fc uc).resourceCalls ≤ rc + fuel + 1 := by
  intro fuel
  induction fuel with
  | zero => intro s idx ru nu rc fc uc; simp [runFrom]
  | succ f ih =>
    intro s idx ru nu rc fc uc
    rcases h : classify (env.respond idx) with st | _ | n | _ <;>
      rcases hr : env.refresh with ⟨a, rt, an⟩ | _ <;>
      rcases hp : env.persistOk with _ | _ <;>
      cases ru <;> cases nu <;>
      simp only [runFrom, h, hr, hp, cond_false, cond_true, if_false, if_true,
        Bool.false_eq_true, Bool.true_eq_false, ite_false, ite_true] <;>
      first
        | exact le_trans (ih ..) (by omega)
        | (simp; omega)
        | simp
        | omega

/-- Bounding lemma: the refresh endpoint is called at most once beyond the
`fc` already counted, and not at all once the refresh budget is spent. -/
theorem runFrom_refreshCalls_le (env : Env) :
    ∀ (fuel : Nat) (s : OAuthSession) (idx : Nat) (ru nu : Bool)
      (rc fc uc : Nat),
      (runFrom env fuel s idx ru nu rc fc uc).refreshCalls ≤
        fc + (bif ru then 0 else 1) := by
  intro fuel
  induction fuel with
  | zero => intro s idx ru nu rc fc uc; cases ru <;> simp [runFrom]
  | succ f ih =>
    intro s idx ru nu rc fc uc
    rcases h : classify (env.respond idx) with st | _ | n | _ <;>
      rcases hr : env.refresh with ⟨a, rt, an⟩ | _ <;>
      rcases hp : env.persistOk with _ | _ <;>
      cases ru <;> cases nu <;>
      simp only [runFrom, h, hr, hp, cond_false, cond_true, if_false, if_true,
        Bool.false_eq_true, Bool.true_eq_false, ite_false, ite_true] <;>
      first
        | exact le_trans (ih ..) (by simp)
        | (simp; omega)
        | simp
        | omega

/-- Bounding lemma: at most one credential-store update is attempted per
unspent retry budget. -/
theorem runFrom_updateCalls_le (env : Env) :
    ∀ (fuel : Nat) (s : OAuthSession) (idx : Nat) (ru nu : Bool)
      (rc fc uc : Nat),
      (runFrom env fuel s idx ru nu rc fc uc).updateCalls ≤
        uc + (bif ru then 0 else 1) + (bif nu then 0 else 1) := by
  intro fuel
  induction fuel with
  | zero =>
    intro s idx ru nu rc fc uc
    cases ru <;> cases nu <;> simp [runFrom] <;> omega
  | succ f ih =>
    intro s idx ru nu rc fc uc
    rcases h : classify (env.respond idx) with st | _ | n | _ <;>
      rcases hr : env.refresh with ⟨a, rt, an⟩ | _ <;>
      rcases hp : env.persistOk with _ | _ <;>
      cases ru <;> cases nu <;>
      simp only [runFrom, h, hr, hp, cond_false, cond_true, if_false, if_true,
        Bool.false_eq_true, Bool.true_eq_false, ite_false, ite_true] <;>
      first
        | exact le_trans (ih ..) (by simp)
        | (simp; omega)
        | simp
        | omega

/-- Frame lemma: when the refresh grant is denied, no path of the executor
ever writes the authorization-server nonce field (resource-server nonce
rotation touches only the resource-server nonce). -/
theorem runFrom_authNonce_of_denied (env : Env) (hd : env.refresh = .denied) :
    ∀ (fuel : Nat) (s : OAuthSession) (idx : Nat) (ru nu : Bool)
      (rc fc uc : Nat),
      (runFrom env fuel s idx ru nu rc fc uc).session.dpopAuthserverNonce =
        s.dpopAuthserverNonce := by
  intro fuel
  induction fuel with
  | zero => intro s idx ru nu rc fc uc; simp [runFrom]
  | succ f ih =>
    intro s idx ru nu rc fc uc
    rcases h : classify (env.respond idx) with st | _ | n | _ <;>
      rcases hp : env.persistOk with _ | _ <;>
      cases ru <;> cases nu <;>
      simp only [runFrom, h, hd, hp, cond_false, cond_true, if_false, if_true,
        Bool.false_eq_true, Bool.true_eq_false, ite_false, ite_true] <;>
      first
        | (rw [ih]; simp [applyPdsNonce])
        | simp

/-- The spec's concrete expired-token response: 400 with
`{error:"invalid_token", error_description:"token exp ..."}`. -/
def respExpired : HttpResponse :=
  ⟨400, some ⟨"invalid_token", some "token exp ..."⟩, none⟩

/-- A nonce-rejection response: 401 `use_dpop_nonce` with the fresh nonce in
the `DPoP-Nonce` header. -/
def respUseNonce (n : String) : HttpResponse :=
  ⟨401, some ⟨"use_dpop_nonce", some "fresh nonce required"⟩, some n⟩

/-- A plain 200 success. -/
def respOk : HttpResponse := ⟨200, none, none⟩

/-- The spec's concrete session: access token `A1`, refresh token `R1`. -/
def sessionA1 : OAuthSession :=
  ⟨"did:plc:alice", "A1", "R1", "https://auth.example", "secret-jwk",
   none, none, 0⟩

/-- Environment of the spec's refresh scenario: first attempt expired,
refresh grants `A2`/`R2`, retried attempt succeeds. -/
def envRefreshHappy : Env :=
  ⟨fun i => if i = 0 then some respExpired else some respOk,
   .granted "A2" "R2" none, true⟩

/-- Environment where the refresh grant is denied and the resource server
keeps answering with the expired-token error. -/
def envRefreshDenied : Env :=
  ⟨fun _ => some respExpired, .denied, true⟩

/-- Environment of the mixed scenario of spec section 9: nonce rejection
first, expired token on the retry, success on the third attempt. -/
def envMixed : Env :=
  ⟨fun i =>
    if i = 0 then some (respUseNonce "n1")
    else if i = 1 then some respExpired
    else some respOk,
   .granted "A2" "R2" none, true⟩

/-- Environment where recovery succeeds but the credential store cannot
commit (`PersistenceError`). -/
def envPersistFail : Env :=
  ⟨fun i => if i = 0 then some respExpired else some respOk,
   .granted "A2" "R2" none, false⟩

/-- Environment whose first attempt simply succeeds. -/
def envFirstOk : Env := ⟨fun _ => some respOk, .denied, true⟩

/-- Claim C1: for every session holding a valid refresh token, a logical call
whose first attempt is classified `TokenExpired` and whose token refresh then
succeeds makes exactly two HTTP calls to the resource server and exactly one
successful refresh call, persists the new token pair to the credential store,
and returns the second resource-server call's outcome as the final result
(read with the spec's "fails once": the retried attempt is not itself a fresh
nonce rejection, which per spec section 9 would consume the independent nonce
budget instead). -/
theorem c1_refresh_retry_two_calls (env : Env) (s : OAuthSession)
    (a rt : String) (an : Option String)
    (h0 : classify (env.respond 0) = .tokenExpired)
    (hr : env.refresh = .granted a rt an)
    (hp : env.persistOk = true)
    (h1 : outcomeIsNonce (classify (env.respond 1)) = false) :
    (pdsAuthedReq env s).resourceCalls = 2 ∧
    (pdsAuthedReq env s).refreshCalls = 1 ∧
    (pdsAuthedReq env s).updateCalls = 1 ∧
    (pdsAuthedReq env s).response = env.respond 1 ∧
    (pdsAuthedReq env s).session.accessToken = a ∧
    (pdsAuthedReq env s).session.refreshToken = rt := by
  rcases h1c : classify (env.respond 1) with st | _ | n | _
  · simp [pdsAuthedReq, runFrom, h0, hr, hp, h1c, applyRefresh]
  · simp [pdsAuthedReq, runFrom, h0, hr, hp, h1c, applyRefresh]
  · rw [h1c] at h1; simp [outcomeIsNonce] at h1
  · simp [pdsAuthedReq, runFrom, h0, hr, hp, h1c, applyRefresh]

/-- Witness for C1 at the spec's concrete scenario (`A1`/`R1`, refresh to
`A2`/`R2`, retried call returns 200). -/
theorem c1_refresh_retry_two_calls_witness :
    classify (envRefreshHappy.respond 0) = .tokenExpired ∧
    envRefreshHappy.refresh = .granted "A2" "R2" none ∧
    envRefreshHappy.persistOk = true ∧
    outcomeIsNonce (classify (envRefreshHappy.respond 1)) = false ∧
    ((pdsAuthedReq envRefreshHappy sessionA1).resourceCalls = 2 ∧
     (pdsAuthedReq envRefreshHappy sessionA1).refreshCalls = 1 ∧
     (pdsAuthedReq envRefreshHappy sessionA1).updateCalls = 1 ∧
     (pdsAuthedReq envRefreshHappy sessionA1).response =
       envRefreshHappy.respond 1 ∧
     (pdsAuthedReq envRefreshHappy sessionA1).session.accessToken = "A2" ∧
     (pdsAuthedReq envRefreshHappy sessionA1).session.refreshToken = "R2") :=
  ⟨by decide, rfl, rfl, by decide,
   c1_refresh_retry_two_calls envRefreshHappy sessionA1 "A2" "R2" none
     (by decide) rfl rfl (by decide)⟩

/-- Claim C3: when the first attempt is classified `TokenExpired` and the
refresh grant is denied (`RefreshDenied`), no retry happens, the caller gets
the original expired-token response unchanged, and the stored session is left
untouched. -/
theorem c3_refresh_denied_original_error (env : Env) (s : OAuthSession)
    (h0 : classify (env.respond 0) = .tokenExpired)
    (hr : env.refresh = .denied) :
    (pdsAuthedReq env s).response = env.respond 0 ∧
    (pdsAuthedReq env s).resourceCalls = 1 ∧
    (pdsAuthedReq env s).refreshCalls = 1 ∧
    (pdsAuthedReq env s).updateCalls = 0 ∧
    (pdsAuthedReq env s).session = s := by
  simp [pdsAuthedReq, runFrom, h0, hr]

/-- Witness for C3: denied refresh surfaces the original 400 and leaves the
session as it was. -/
theorem c3_refresh_denied_original_error_witness :
    classify (envRefreshDenied.respond 0) = .tokenExpired ∧
    envRefreshDenied.refresh = .denied ∧
    ((pdsAuthedReq envRefreshDenied sessionA1).response =
       envRefreshDenied.respond 0 ∧
     (pdsAuthedReq envRefreshDenied sessionA1).resourceCalls = 1 ∧
     (pdsAuthedReq envRefreshDenied sessionA1).refreshCalls = 1 ∧
     (pdsAuthedReq envRefreshDenied sessionA1).updateCalls = 0 ∧
     (pdsAuthedReq envRefreshDenied sessionA1).session = sessionA1) :=
  ⟨by decide, rfl,
   c3_refresh_denied_original_error envRefreshDenied sessionA1 (by decide) rfl⟩

/-- Claim C6: the one-retry budgets of the two recoverable classes are
independent: a call that first hits `NonceRequired` and, on the retried
attempt, hits `TokenExpired` still gets its one refresh-and-retry cycle —
exactly one refresh call, a third resource-server attempt, and the third
attempt's outcome as the result — before anything is returned. -/
theorem c6_independent_budgets (env : Env) (s : OAuthSession)
    (n a rt : String) (an : Option String)
    (h0 : classify (env.respond 0) = .nonceRequired n)
    (h1 : classify (env.respond 1) = .tokenExpired)
    (hr : env.refresh = .granted a rt an)
    (hp : env.persistOk = true) :
    (pdsAuthedReq env s).refreshCalls = 1 ∧
    (pdsAuthedReq env s).resourceCalls = 3 ∧
    (pdsAuthedReq env s).response = env.respond 2 ∧
    (pdsAuthedReq env s).session.accessToken = a ∧
    (pdsAuthedReq env s).session.refreshToken = rt := by
  simp [pdsAuthedReq, runFrom, h0, h1, hr, hp, applyPdsNonce, applyRefresh]

/-- Witness for C6 at the mixed environment: nonce rejection, then expired
token, then 200. -/
theorem c6_independent_budgets_witness :
    classify (envMixed.respond 0) = .nonceRequired "n1" ∧
    classify (envMixed.respond 1) = .tokenExpired ∧
    envMixed.refresh = .granted "A2" "R2" none ∧
    envMixed.persistOk = true ∧
    ((pdsAuthedReq envMixed sessionA1).refreshCalls = 1 ∧
     (pdsAuthedReq envMixed sessionA1).resourceCalls = 3 ∧
     (pdsAuthedReq envMixed sessionA1).response = envMixed.respond 2 ∧
     (pdsAuthedReq envMixed sessionA1).session.accessToken = "A2" ∧
     (pdsAuthedReq envMixed sessionA1).session.refreshToken = "R2") :=
  ⟨by decide, by decide, rfl, rfl,
   c6_independent_budgets envMixed sessionA1 "n1" "A2" "R2" none
     (by decide) (by decide) rfl rfl⟩

/-- Claim C7: when recovery obtains new credentials (a granted refresh after
`TokenExpired`, or a fresh nonce after `NonceRequired`) but the
credential-store update fails, the executor behaves as if recovery failed
outright: one resource-server call only (no retry with unpersisted
credentials), the original failure returned, the stored session unchanged. -/
theorem c7_persist_failure_no_retry (env : Env) (s : OAuthSession)
    (hp : env.persistOk = false) :
    ((∃ a rt an, env.refresh = RefreshResult.granted a rt an) →
      classify (env.respond 0) = .tokenExpired →
      (pdsAuthedReq env s).resourceCalls = 1 ∧
      (pdsAuthedReq env s).response = env.respond 0 ∧
      (pdsAuthedReq env s).session = s) ∧
    (∀ n, classify (env.respond 0) = .nonceRequired n →
      (pdsAuthedReq env s).resourceCalls = 1 ∧
      (pdsAuthedReq env s).response = env.respond 0 ∧
      (pdsAuthedReq env s).session = s) := by
  constructor
  · rintro ⟨a, rt, an, hr⟩ h0
    simp [pdsAuthedReq, runFrom, h0, hr, hp]
  · intro n h0
    simp [pdsAuthedReq, runFrom, h0, hp]

/-- Witness for C7: a granted refresh whose persistence fails leaves a single
resource-server call, the original error, and the stale session. -/
theorem c7_persist_failure_no_retry_witness :
    envPersistFail.persistOk = false ∧
    envPersistFail.refresh = RefreshResult.granted "A2" "R2" none ∧
    classify (envPersistFail.respond 0) = .tokenExpired ∧
    ((pdsAuthedReq envPersistFail sessionA1).resourceCalls = 1 ∧
     (pdsAuthedReq envPersistFail sessionA1).response =
       envPersistFail.respond 0 ∧
     (pdsAuthedReq envPersistFail sessionA1).session = sessionA1) :=
  ⟨rfl, rfl, by decide,
   (c7_persist_failure_no_retry envPersistFail sessionA1 rfl).1
     ⟨"A2", "R2", none, rfl⟩ (by decide)⟩

/-- Claim C8: a call whose first attempt gets a 2xx response performs zero
credential-store update calls and zero refresh calls; the stored session is
unchanged and the single response is returned. -/
theorem c8_success_no_side_effects (env : Env) (s : OAuthSession)
    (h0 : outcomeIsSuccess (classify (env.respond 0)) = true) :
    (pdsAuthedReq env s).updateCalls = 0 ∧
    (pdsAuthedReq env s).refreshCalls = 0 ∧
    (pdsAuthedReq env s).session = s ∧
    (pdsAuthedReq env s).resourceCalls = 1 ∧
    (pdsAuthedReq env s).response = env.respond 0 := by
  rcases h0c : classify (env.respond 0) with st | _ | n | _
  · simp [pdsAuthedReq, runFrom, h0c]
  · rw [h0c] at h0; simp [outcomeIsSuccess] at h0
  · rw [h0c] at h0; simp [outcomeIsSuccess] at h0
  · rw [h0c] at h0; simp [outcomeIsSuccess] at h0

/-- Witness for C8: a first-attempt 200 touches nothing. -/
theorem c8_success_no_side_effects_witness :
    outcomeIsSuccess (classify (envFirstOk.respond 0)) = true ∧
    ((pdsAuthedReq envFirstOk sessionA1).updateCalls = 0 ∧
     (pdsAuthedReq envFirstOk sessionA1).refreshCalls = 0 ∧
     (pdsAuthedReq envFirstOk sessionA1).session = sessionA1 ∧
     (pdsAuthedReq envFirstOk sessionA1).resourceCalls = 1 ∧
     (pdsAuthedReq envFirstOk sessionA1).response = envFirstOk.respond 0) :=
  ⟨by decide, c8_success_no_side_effects envFirstOk sessionA1 (by decide)⟩

/-- Counterexample to claim C2 as stated: in the mixed scenario (nonce
rejection first, expired token on the retried attempt) the retried attempt's
`TokenExpired` is NOT returned to the caller as `OtherFailure` — its refresh
budget is still unspent — and a third HTTP attempt is issued, whose outcome
is the final result. -/
theorem c2_counterexample_third_attempt :
    (pdsAuthedReq envMixed sessionA1).resourceCalls = 3 ∧
    (pdsAuthedReq envMixed sessionA1).refreshCalls = 1 ∧
    (pdsAuthedReq envMixed sessionA1).response = some respOk ∧
    classify (envMixed.respond 0) = .nonceRequired "n1" ∧
    classify (envMixed.respond 1) = .tokenExpired := by
  refine ⟨by decide, by decide, by decide, by decide, by decide⟩

/-- Claim C2 as amended: each of `TokenExpired` and `NonceRequired` triggers
at most one retry per logical call (at most one refresh call, at most two
store updates), and once a classification's own budget is spent a repeated
occurrence is returned to the caller as-is, so no logical call ever issues a
fourth resource-server attempt — the count is bounded by three, not two. -/
theorem c2_bounded_retries :
    (∀ (env : Env) (s : OAuthSession),
      (pdsAuthedReq env s).resourceCalls ≤ 3 ∧
      (pdsAuthedReq env s).refreshCalls ≤ 1 ∧
      (pdsAuthedReq env s).updateCalls ≤ 2) ∧
    (∀ (env : Env) (fuel : Nat) (s : OAuthSession) (idx rc fc uc : Nat),
      runFrom env fuel s idx true true rc fc uc =
        ⟨env.respond idx, s, rc + 1, fc, uc⟩) := by
  constructor
  · intro env s
    refine ⟨?_, ?_, ?_⟩
    · have h := runFrom_resourceCalls_le env 2 s 0 false false 0 0 0
      simpa [pdsAuthedReq] using h
    · have h := runFrom_refreshCalls_le env 2 s 0 false false 0 0 0
      simpa [pdsAuthedReq] using h
    · have h := runFrom_updateCalls_le env 2 s 0 false false 0 0 0
      simpa [pdsAuthedReq] using h
  · intro env fuel s idx rc fc uc
    cases fuel with
    | zero => simp [runFrom]
    | succ f =>
      rcases h : classify (env.respond idx) with st | _ | n | _ <;>
        simp [runFrom, h]

/-- Claim C4: handling a resource-server nonce rejection mutates only the
session's resource-server nonce field — every other field, in particular the
authorization-server nonce (a distinct optional field), is untouched — and a
whole run in which the refresh grant is never obtained leaves the
authorization-server nonce exactly as stored. -/
theorem c4_nonce_rotation_frame (s : OAuthSession) (n : String) (env : Env) :
    (applyPdsNonce s n).dpopPdsNonce = some n ∧
    (applyPdsNonce s n).dpopAuthserverNonce = s.dpopAuthserverNonce ∧
    (applyPdsNonce s n).did = s.did ∧
    (applyPdsNonce s n).accessToken = s.accessToken ∧
    (applyPdsNonce s n).refreshToken = s.refreshToken ∧
    (applyPdsNonce s n).authserverIss = s.authserverIss ∧
    (applyPdsNonce s n).dpopPrivateJwk = s.dpopPrivateJwk ∧
    (applyPdsNonce s n).updatedAt = s.updatedAt ∧
    (env.refresh = .denied →
      (pdsAuthedReq env s).session.dpopAuthserverNonce =
        s.dpopAuthserverNonce) := by
  refine ⟨rfl, rfl, rfl, rfl, rfl, rfl, rfl, rfl, ?_⟩
  intro hd
  exact runFrom_authNonce_of_denied env hd 2 s 0 false false 0 0 0

/-- Witness for C4 at the concrete session and a run against an environment
that never grants a refresh. -/
theorem c4_nonce_rotation_frame_witness :
    envRefreshDenied.refresh = .denied ∧
    (applyPdsNonce sessionA1 "n1").dpopPdsNonce = some "n1" ∧
    (applyPdsNonce sessionA1 "n1").dpopAuthserverNonce =
      sessionA1.dpopAuthserverNonce ∧
    (pdsAuthedReq envRefreshDenied sessionA1).session.dpopAuthserverNonce =
      sessionA1.dpopAuthserverNonce :=
  ⟨rfl,
   (c4_nonce_rotation_frame sessionA1 "n1" envRefreshDenied).1,
   (c4_nonce_rotation_frame sessionA1 "n1" envRefreshDenied).2.1,
   (c4_nonce_rotation_frame sessionA1 "n1" envRefreshDenied).2.2.2.2.2.2.2.2
     rfl⟩

/-- Claim C5: a response is classified `Success` exactly on 2xx; a 400/401
whose error body is `invalid_token` with an expiry-referencing description is
`TokenExpired`, while `invalid_token` without such a description is
`OtherFailure`; a 400/401 `use_dpop_nonce` body with the fresh nonce in the
dedicated header is `NonceRequired` of that nonce (without the header it is
`OtherFailure`); any other body, status, or a transport failure is
`OtherFailure`. -/
theorem c5_classify_cases (r : HttpResponse) :
    (200 ≤ r.status ∧ r.status < 300 →
      classify (some r) = .success r.status) ∧
    (∀ b, (r.status = 400 ∨ r.status = 401) → r.errorBody = some b →
      (b.error = "invalid_token" →
        (strContainsSub (b.errorDescription.getD "") "exp" = true →
          classify (some r) = .tokenExpired) ∧
        (strContainsSub (b.errorDescription.getD "") "exp" = false →
          classify (some r) = .otherFailure)) ∧
      (b.error = "use_dpop_nonce" →
        (∀ n, r.dpopNonceHeader = some n →
          classify (some r) = .nonceRequired n) ∧
        (r.dpopNonceHeader = none → classify (some r) = .otherFailure)) ∧
      (b.error ≠ "invalid_token" → b.error ≠ "use_dpop_nonce" →
        classify (some r) = .otherFailure)) ∧
    ((r.status = 400 ∨ r.status = 401) → r.errorBody = none →
      classify (some r) = .otherFailure) ∧
    (¬(200 ≤ r.status ∧ r.status < 300) →
      ¬(r.status = 400 ∨ r.status = 401) →
      classify (some r) = .otherFailure) ∧
    classify none = .otherFailure := by
  refine ⟨?_, ?_, ?_, ?_, rfl⟩
  · intro h2
    simp [classify, h2]
  · intro b hs hb
    have h2 : ¬(200 ≤ r.status ∧ r.status < 300) := by
      rcases hs with h | h <;> omega
    refine ⟨?_, ?_, ?_⟩
    · intro he
      constructor
      · intro hx
        simp [classify, h2, hs, hb, he, hx]
      · intro hx
        simp [classify, h2, hs, hb, he, hx]
    · intro he
      constructor
      · intro n hn
        simp [classify, h2, hs, hb, he, hn]
      · intro hn
        simp [classify, h2, hs, hb, he, hn]
    · intro he1 he2
      simp [classify, h2, hs, hb, he1, he2]
  · intro hs hb
    have h2 : ¬(200 ≤ r.status ∧ r.status < 300) := by
      rcases hs with h | h <;> omega
    simp [classify, h2, hs, hb]
  · intro h2 h4
    simp [classify, h2, h4]

/-- Witness for C5 on the spec's concrete wire examples: the expired-token
body, the nonce rejection, and an `invalid_token` body without an
expiry-referencing description. -/
theorem c5_classify_cases_witness :
    (respExpired.status = 400 ∨ respExpired.status = 401) ∧
    respExpired.errorBody = some ⟨"invalid_token", some "token exp ..."⟩ ∧
    classify (some respExpired) = .tokenExpired ∧
    classify (some (respUseNonce "n1")) = .nonceRequired "n1" ∧
    classify (some ⟨400, some ⟨"invalid_token", some "bad signature"⟩, none⟩) =
      .otherFailure :=
  ⟨Or.inl rfl, rfl,
   (((c5_classify_cases respExpired).2.1 ⟨"invalid_token", some "token exp ..."⟩
       (Or.inl rfl) rfl).1 rfl).1 (by decide),
   (((c5_classify_cases (respUseNonce "n1")).2.1
       ⟨"use_dpop_nonce", some "fresh nonce required"⟩
       (Or.inr rfl) rfl).2.1 rfl).1 "n1" rfl,
   (((c5_classify_cases ⟨400, some ⟨"invalid_token", some "bad signature"⟩, none⟩).2.1
       ⟨"invalid_token", some "bad signature"⟩
       (Or.inl rfl) rfl).1 rfl).2 (by decide)⟩

/-- A concrete `/me` response as declared by `MeApiResponse`
(`src/unnamed/part_006`): the backend's user payload, whose declared `User`
type (`src/unnamed/part_002` lines 155-169) carries the session's private
proof-of-possession key `dpop_private_jwk`. -/
def leakedMeResponse : MeApiResponse :=
  ⟨"Logged in",
   ⟨"A1", "https://auth.example", "did:plc:alice", "an0", none,
    "SECRET-PRIVATE-JWK", "alice.example", "https://pds.example", "R1",
    "https://cdn.example/avatar.png", "Alice", "2025-01-01", "hi"⟩⟩

/-- Claim C9 is violated by the code: the `/me` response type includes the
session's private proof-of-possession key, `useUser`'s `select` hands the
full user object — private key included — to the application, and one
`setUser` call stores it in the client-side store persisted to
`localStorage`.  The key therefore leaves the session through an outbound
interface, evaluated here at a concrete response. -/
theorem c9_private_key_disclosed :
    (useUserSelect leakedMeResponse).dpop_private_jwk =
      "SECRET-PRIVATE-JWK" ∧
    leakedMeResponse.user.dpop_private_jwk = "SECRET-PRIVATE-JWK" ∧
    (runStore initialUserState
        [StoreAction.set (some (useUserSelect leakedMeResponse))]).user =
      UserValue.someUser leakedMeResponse.user :=
  ⟨rfl, rfl, rfl⟩

/-- Null-reachability of the user store: a run of store calls ends with a
`null` user only if it contained a `clearUser` call or a `setUser(null)`
call, or started from a `null` user. -/
theorem runStore_null_needs_clear :
    ∀ (acts : List StoreAction) (st : UserState),
      (runStore st acts).user = UserValue.nullUser →
      StoreAction.clear ∈ acts ∨ StoreAction.set none ∈ acts ∨
        st.user = UserValue.nullUser := by
  intro acts
  induction acts with
  | nil => intro st h; exact Or.inr (Or.inr h)
  | cons a rest ih =>
    intro st h
    rcases a with u | _
    · rcases ih (applyAction st (.set u)) h with hmem | hmem | hnull
      · exact Or.inl (List.mem_cons_of_mem _ hmem)
      · exact Or.inr (Or.inl (List.mem_cons_of_mem _ hmem))
      · rcases u with _ | x
        · exact Or.inr (Or.inl (List.mem_cons_self _ _))
        · simp [applyAction, setUser] at hnull
    · exact Or.inl (List.mem_cons_self _ _)

/-- Counterexample to claim C10 as stated: the store interface declares
`setUser: (user: User | null) => void` (`src/unnamed/part_004` line 7) and
the implementation stores whatever is passed, so a single `setUser(null)`
call makes the user `null` with no `clearUser` anywhere in the call list —
the user does not become `null` "only after clearUser". -/
theorem c10_counterexample_set_null :
    (runStore initialUserState [StoreAction.set none]).user =
      UserValue.nullUser ∧
    StoreAction.clear ∉ [StoreAction.set none] := by
  refine ⟨rfl, by decide⟩

/-- Claim C10 as amended: a freshly created user store with no persisted
state holds the empty object cast to `User` — not `null` — before any
`setUser` call, so a caller testing `user === null` for the logged-out state
sees a non-null, field-less user on first load; the user becomes `null` only
via `clearUser` or via a `setUser(null)` call (the declared `setUser`
signature admits `null`). -/
theorem c10_initial_user_not_null :
    initialUserState.user = UserValue.emptyUser ∧
    initialUserState.user ≠ UserValue.nullUser ∧
    (∀ acts : List StoreAction,
      (runStore initialUserState acts).user = UserValue.nullUser →
      StoreAction.clear ∈ acts ∨ StoreAction.set none ∈ acts) := by
  refine ⟨rfl, by decide, ?_⟩
  intro acts h
  rcases runStore_null_needs_clear acts initialUserState h with hmem | hmem | hnull
  · exact Or.inl hmem
  · exact Or.inr hmem
  · simp [initialUserState] at hnull

/-- Witness for C10: the state reached by one `clearUser` call is `null`, and
the theorem then places a `clearUser` or a `setUser(null)` in the call list.
-/
theorem c10_initial_user_not_null_witness :
    (runStore initialUserState [StoreAction.clear]).user =
      UserValue.nullUser ∧
    (StoreAction.clear ∈ [StoreAction.clear] ∨
      StoreAction.set none ∈ [StoreAction.clear]) :=
  ⟨rfl, c10_initial_user_not_null.2.2 [StoreAction.clear] rfl⟩
